import Mathlib

/-!
Verification development for the gesture-recognizer core (drag recognizer,
abstract recognizer state machine, kinematics library and config resolver).

Numbers are modelled as rationals (JS numbers, ignoring floating-point
rounding).  `Vector2` is a pair of rationals.  Per-axis intentionality
(`false | number` in the source) is modelled as `Option ℚ` with `none`
standing for `false`.  JS `undefined` pointer ids are `none : Option ℤ`.
-/

/-- JS number pairs. -/
def Vector2 : Type := ℚ × ℚ

instance : DecidableEq Vector2 := inferInstanceAs (DecidableEq (ℚ × ℚ))

/-- Vector addition, from `addV` in the math module (specialized to 2D). -/
def addV (v1 v2 : Vector2) : Vector2 := (v1.1 + v2.1, v1.2 + v2.2)

/-- Vector subtraction, from `subV` in the math module (specialized to 2D). -/
def subV (v1 v2 : Vector2) : Vector2 := (v1.1 - v2.1, v1.2 - v2.2)

/-- `Math.sign`: 1 for positive, -1 for negative, 0 for zero. -/
def jsSign (q : ℚ) : ℚ := if 0 < q then 1 else if q < 0 then -1 else 0

/-- `calculateVelocity(delta, delta_t, len)` from the math module.
`Math.hypot(...delta)` is irrational in general, so the value the source
computes for it is passed in as the explicit argument `hypotDelta`; the
JS fallback `len = len || Math.hypot(...delta)` (0 is falsy) and the
guard `delta_t ? len / delta_t : 0` (0 is falsy) are kept as in the source. -/
def calculateVelocity (hypotDelta : ℚ) (delta_t : ℚ) (len : ℚ) : ℚ :=
  let len := if len = 0 then hypotDelta else len
  if delta_t = 0 then 0 else len / delta_t

/-- `calculateVelocities(delta, delta_t)` from the math module: per-axis
`delta / delta_t`, or the zero vector when `delta_t` is 0 (falsy). -/
def calculateVelocities (delta : Vector2) (delta_t : ℚ) : Vector2 :=
  if delta_t = 0 then (0, 0) else (delta.1 / delta_t, delta.2 / delta_t)

/-- Squared form of `calculateDistance(movement) = Math.hypot(...movement)`
from the math module.  `Math.hypot` is an irrational square root; every use
in the repository only compares the distance with a nonnegative constant
`t`, and `hypot v ≥ t ↔ v.1^2 + v.2^2 ≥ t^2` for `t ≥ 0`, so comparisons
are carried out on squares. -/
def calculateDistanceSq (movement : Vector2) : ℚ :=
  movement.1 * movement.1 + movement.2 * movement.2

/-- `TAP_DISTANCE_THRESHOLD` from DragRecognizer.ts. -/
def TAP_DISTANCE_THRESHOLD : ℚ := 3

/-- `SWIPE_MAX_ELAPSED_TIME` from DragRecognizer.ts. -/
def SWIPE_MAX_ELAPSED_TIME : ℚ := 220

/-- `DEFAULT_DRAG_DELAY` from utils/config.ts. -/
def DEFAULT_DRAG_DELAY : ℚ := 180

/-- `DEFAULT_RUBBERBAND` from utils/config.ts. -/
def DEFAULT_RUBBERBAND : ℚ := 0.15

/-- `DEFAULT_SWIPE_VELOCITY` from utils/config.ts. -/
def DEFAULT_SWIPE_VELOCITY : ℚ := 0.5

/-- `DEFAULT_SWIPE_DISTANCE` from utils/config.ts. -/
def DEFAULT_SWIPE_DISTANCE : ℚ := 60

/-- One bound of an allowed range: `none` is the default infinite bound. -/
def Bound : Type := Option ℚ

instance : DecidableEq Bound := inferInstanceAs (DecidableEq (Option ℚ))

/-- The diminishing-return curve of the rubberband, written from the spec:
`(1 - 1/((|excess| * factor / extent) + 1)) * extent` past the bound. -/
def rubberbandCurve (excess extent factor : ℚ) : ℚ :=
  (1 - 1 / (excess * factor / extent + 1)) * extent

/-- Modelled from the spec: `rubberbandIfOutOfBounds` lives in
src/utils/rubberband.ts, which is not under src/.  The spec says: values
inside `[min, max]` pass through unchanged; a value past a bound is
compressed toward the bound by the diminishing-return curve using the
bound extent `max - min`; factor 0 degenerates to a hard clamp at the
bound.  The spec leaves the infinite-extent case (a missing opposite
bound) open; in the limit of growing extent the curve is the identity on
the excess for a positive factor and a hard clamp for factor 0, which is
what this model does. -/
def rubberbandIfOutOfBounds (v : ℚ) (lo hi : Bound) (factor : ℚ) : ℚ :=
  match lo, hi with
  | some l, some h =>
    if v < l then (if factor = 0 then l else l - rubberbandCurve (l - v) (h - l) factor)
    else if h < v then (if factor = 0 then h else h + rubberbandCurve (v - h) (h - l) factor)
    else v
  | some l, none => if v < l then (if factor = 0 then l else v) else v
  | none, some h => if h < v then (if factor = 0 then h else v) else v
  | none, none => v

/-- Resolved internal drag options (the fields the recognizer core and the
drag recognizer read).  `initial` is kept as the resolved vector: the
source evaluates a function-valued option through `valueFn` at each use,
and the claims under study concern static initial values. -/
structure DragConfig where
  enabled : Bool
  threshold : Vector2
  rubberband : Vector2
  boundsX : Bound × Bound
  boundsY : Bound × Bound
  initial : Vector2
  delay : ℚ
  swipeVelocity : Vector2
  swipeDistance : Vector2
  filterTaps : Bool
  deriving DecidableEq

/-- `computeRubberband` from Recognizer.ts: maps `rubberbandIfOutOfBounds`
over both axes with the configured bounds. -/
def computeRubberband (cfg : DragConfig) (vector : Vector2) (rubberband : Vector2) : Vector2 :=
  (rubberbandIfOutOfBounds vector.1 cfg.boundsX.1 cfg.boundsX.2 rubberband.1,
   rubberbandIfOutOfBounds vector.2 cfg.boundsY.1 cfg.boundsY.2 rubberband.2)

/-- The drag gesture state (the fields of `GestureState<'drag'>` that the
code under study reads or writes).  The scalar `velocity`, `distance` and
`direction` fields involve `Math.hypot` and are read by none of the
claims, so they are not tracked. -/
structure RState where
  _active : Bool
  active : Bool
  first : Bool
  last : Bool
  _blocked : Bool
  _intentional : Option ℚ × Option ℚ
  _initial : Vector2
  initial : Vector2
  values : Vector2
  _movement : Vector2
  movement : Vector2
  offset : Vector2
  lastOffset : Vector2
  delta : Vector2
  velocities : Vector2
  _isTap : Bool
  tap : Bool
  swipe : Vector2
  canceled : Bool
  _pointerId : Option ℤ
  _delayedEvent : Bool
  startTime : ℚ
  timeStamp : ℚ
  elapsedTime : ℚ
  memo : Option ℚ
  deriving DecidableEq

/-- The shared cross-gesture state (fields touched by the drag recognizer). -/
structure Shared where
  down : Bool
  buttons : ℤ
  touches : ℤ
  dragging : Bool
  deriving DecidableEq

/-- A pointer event sample: identifier, timestamp, client coordinates and
the generic event data (`down`, buttons, touches) that
`getGenericEventData` extracts. -/
structure Ev where
  pointerId : ℤ
  timeStamp : ℚ
  values : Vector2
  down : Bool
  buttons : ℤ
  touches : ℤ
  deriving DecidableEq

/-- Controller-owned data relevant to one drag recognizer: its gesture
state, the shared state, and the at-most-one pending timer for the kind
(carrying the persisted event the timer callback will receive). -/
structure Ctrl where
  state : RState
  shared : Shared
  timer : Option Ev
  deriving DecidableEq

/-- The gesture handler: receives the merged state and returns the new
memo (or `none` for JS `undefined`, which keeps the previous memo). -/
def Handler : Type := RState → Shared → Option ℚ

/-- `getIntentionalDisplacement` from Recognizer.ts: once
`|movement| ≥ threshold`, intentionality is `sign(movement) * threshold`,
otherwise still `false` (`none`). -/
def getIntentionalDisplacement (movement threshold : ℚ) : Option ℚ :=
  if threshold ≤ |movement| then some (jsSign movement * threshold) else none

/-- The emitted pre-rubberband movement of `getMovement`:
`_i ≠ false ? _m - _i : valueFn(initial)` per axis. -/
def preMovement (cfg : DragConfig) (m : Vector2) (i : Option ℚ × Option ℚ) : Vector2 :=
  ((match i.1 with | some a => m.1 - a | none => cfg.initial.1),
   (match i.2 with | some b => m.2 - b | none => cfg.initial.2))

/-- The fields returned by `getMovement` (a partial gesture state in the
source).  When `_blocked` is true only `_intentional`, `_blocked`,
`_movement` and `delta` are part of the returned object; `applyMovement`
implements that. -/
structure MovementUpdate where
  _intentional : Option ℚ × Option ℚ
  _blocked : Bool
  _movement : Vector2
  _initial : Vector2
  movement : Vector2
  values : Vector2
  offset : Vector2
  delta : Vector2
  deriving DecidableEq

/-- `getMovement(values)` from Recognizer.ts, for a coordinates gesture
without axis lock.  `getInternalMovement` is `subV(values, state.initial)`
(modelled from the spec: CoordinatesRecognizer.ts is not under src/; the
spec says raw displacement is current minus initial pointer position) and
`checkIntentionality` is the base implementation from Recognizer.ts,
which returns `{ _intentional, _blocked: false }` unchanged. -/
def getMovement (cfg : DragConfig) (values : Vector2) (state : RState) : MovementUpdate :=
  let m : Vector2 := subV values state.initial
  let i0 : Option ℚ :=
    match state._intentional.1 with
    | none => getIntentionalDisplacement m.1 cfg.threshold.1
    | some a => some a
  let i1 : Option ℚ :=
    match state._intentional.2 with
    | none => getIntentionalDisplacement m.2 cfg.threshold.2
    | some b => some b
  -- base checkIntentionality: `{ _intentional: [i0, i1], _blocked: false }`
  let bl : Bool := false
  -- `_initial[k] = valueFn(initial)[k]` on the frame where axis k turns intentional
  let ini : Vector2 :=
    ((if i0 ≠ none ∧ state._intentional.1 = none then cfg.initial.1 else state._initial.1),
     (if i1 ≠ none ∧ state._intentional.2 = none then cfg.initial.2 else state._initial.2))
  let movementPre : Vector2 := preMovement cfg m (i0, i1)
  let offset0 : Vector2 := addV movementPre state.lastOffset
  let rb : Vector2 := if state._active then cfg.rubberband else (0, 0)
  let movement : Vector2 := computeRubberband cfg (addV movementPre ini) rb
  { _intentional := (i0, i1)
    _blocked := bl
    _movement := m
    _initial := ini
    movement := movement
    values := values
    offset := computeRubberband cfg offset0 rb
    delta := if bl then (0, 0) else subV movement state.movement }

/-- Spreading the object returned by `getMovement` over a gesture state
(`updateGestureState`).  The blocked early return of `getMovement` only
carries `_intentional`, `_blocked`, `_movement` and `delta`. -/
def applyMovement (t : RState) (m : MovementUpdate) : RState :=
  if m._blocked then
    { t with _intentional := m._intentional, _blocked := true,
             _movement := m._movement, delta := m.delta }
  else
    { t with _intentional := m._intentional, _blocked := false,
             _movement := m._movement, _initial := m._initial,
             movement := m.movement, values := m.values,
             offset := m.offset, delta := m.delta }

/-- Modelled from the spec: the fresh per-session drag state produced by
`getInitialState` in src/utils/state.ts, which is not under src/.  Spec:
movement resets to the initial value at session start, intentionality
starts not-crossed, a session is flagged a tap while its distance stays
small (so the flag starts true), memo and the transition flags reset. -/
def initDragState : RState :=
  { _active := false, active := false, first := false, last := false
    _blocked := false, _intentional := (none, none)
    _initial := (0, 0), initial := (0, 0), values := (0, 0)
    _movement := (0, 0), movement := (0, 0)
    offset := (0, 0), lastOffset := (0, 0), delta := (0, 0)
    velocities := (0, 0)
    _isTap := true, tap := false, swipe := (0, 0)
    canceled := false, _pointerId := none, _delayedEvent := false
    startTime := 0, timeStamp := 0, elapsedTime := 0, memo := none }

/-- `getStartGestureState` from Recognizer.ts: the reinitialized start
state — a fresh initial state with `_active`, the start values, and
`offset` and `lastOffset` both set to the offset left in the current
state by the previous session. -/
def getStartGestureState (state : RState) (values : Vector2) (timeStamp : ℚ) : RState :=
  { initDragState with
    _active := true
    values := values
    initial := values
    offset := state.offset
    lastOffset := state.offset
    startTime := timeStamp }

/-- `fireGestureHandler(forceFlag)` from Recognizer.ts, acting on the
controller data for the drag kind.  Returns the updated controller data
and whether the handler was invoked (`false` models the `null` returns).
Drag is a continuous, non-debounced gesture (modelled from the spec:
CoordinatesRecognizer.ts, which carries the override, is not under src/;
debounced kinds are the wheel/scroll ones), so the blocked branch ends
the session and cleans up.  `clean` for a drag clears the pending timer
and resets `_delayedEvent`. -/
def fireGestureHandler (handler : Handler) (forceFlag : Bool) (c : Ctrl) : Ctrl × Bool :=
  if c.state._blocked then
    -- non-debounced: `this.state._active = false; this.clean()`
    ({ c with state := { c.state with _active := false, _delayedEvent := false },
              timer := none }, false)
  else if ¬forceFlag ∧ c.state._intentional.1 = none ∧ c.state._intentional.2 = none then
    (c, false)
  else
    let ac := c.state._active
    let s1 : RState :=
      { c.state with
        active := ac
        first := ac ∧ ¬c.state.active
        last := c.state.active ∧ ¬ac }
    let sh1 : Shared := { c.shared with dragging := ac }
    let newMemo : Option ℚ := handler s1 sh1
    let s2 : RState :=
      { s1 with memo := match newMemo with | some m => some m | none => s1.memo }
    -- `if (!_active) this.clean()`
    if ac then ({ c with state := s2, shared := sh1 }, true)
    else ({ c with state := { s2 with _delayedEvent := false }, shared := sh1, timer := none }, true)

/-- `startDrag(event)` from DragRecognizer.ts.  The shared state takes the
generic event data; the start state is `getStartGestureState` plus the
start generic payload and the event's pointer id; the movement comes from
`getMovement(values)` which — the method having a single parameter in
Recognizer.ts, the extra `startState` argument at the call site being
dropped — still reads the stale pre-session state; the spreads
`{ ...startState, ...movementState }` let the movement fields win. -/
def startDrag (cfg : DragConfig) (handler : Handler) (ev : Ev) (c : Ctrl) : Ctrl × Bool :=
  let sh1 : Shared := { c.shared with down := ev.down, buttons := ev.buttons, touches := ev.touches }
  let startState : RState :=
    { getStartGestureState c.state ev.values ev.timeStamp with
      timeStamp := ev.timeStamp
      elapsedTime := 0
      _pointerId := some ev.pointerId }
  let movementState : MovementUpdate := getMovement cfg ev.values c.state
  let s1 : RState := applyMovement startState movementState
  fireGestureHandler handler false { state := s1, shared := sh1, timer := c.timer }

/-- `onDragEnd(event)` from DragRecognizer.ts.  A mismatched pointer id is
ignored; otherwise the session is deactivated, the shared state cleared,
the end movement recomputed, the swipe computed from the pre-end
velocities, movement and intentionality under the 220 ms cutoff, and the
handler fired with the force flag `filterTaps && _isTap`. -/
def onDragEnd (cfg : DragConfig) (handler : Handler) (ev : Ev) (c : Ctrl) : Ctrl × Bool :=
  if some ev.pointerId ≠ c.state._pointerId then (c, false)
  else
    let s0 : RState := { c.state with _active := false }
    let sh1 : Shared := { c.shared with down := false, buttons := 0, touches := 0 }
    let vx := s0.velocities.1
    let vy := s0.velocities.2
    let mx := s0.movement.1
    let my := s0.movement.2
    let ix := s0._intentional.1
    let iy := s0._intentional.2
    let elapsed : ℚ := ev.timeStamp - s0.startTime
    let mov : MovementUpdate := getMovement cfg s0.values s0
    let swipe : Vector2 :=
      ((if elapsed < SWIPE_MAX_ELAPSED_TIME ∧ ix ≠ none ∧
           cfg.swipeVelocity.1 < |vx| ∧ cfg.swipeDistance.1 < |mx| then jsSign vx else 0),
       (if elapsed < SWIPE_MAX_ELAPSED_TIME ∧ iy ≠ none ∧
           cfg.swipeVelocity.2 < |vy| ∧ cfg.swipeDistance.2 < |my| then jsSign vy else 0))
    let s1 : RState :=
      { applyMovement s0 mov with
        timeStamp := ev.timeStamp
        elapsedTime := elapsed
        tap := s0._isTap
        swipe := swipe }
    fireGestureHandler handler (cfg.filterTaps ∧ s1._isTap)
      { state := s1, shared := sh1, timer := c.timer }

/-- `onDragChange(event)` from DragRecognizer.ts.  Canceled gestures and
mismatched pointer ids are ignored; an inactive gesture responds only
when a delayed start is pending, in which case the pending timer is
cleared and the drag starts immediately from this event; a sample with
no buttons or touches left ends the gesture; otherwise shared state,
kinematics (the velocities come from `delta / delta_t`), the tap check
against the un-thresholded distance and the new movement are applied and
the handler fired. -/
def onDragChange (cfg : DragConfig) (handler : Handler) (ev : Ev) (c : Ctrl) : Ctrl × Bool :=
  if c.state.canceled then (c, false)
  else if some ev.pointerId ≠ c.state._pointerId then (c, false)
  else if ¬c.state._active then
    (if c.state._delayedEvent then startDrag cfg handler ev { c with timer := none }
     else (c, false))
  else if ¬ev.down then onDragEnd cfg handler ev c
  else
    let sh1 : Shared := { c.shared with down := ev.down, buttons := ev.buttons, touches := ev.touches }
    let mov : MovementUpdate := getMovement cfg ev.values c.state
    let delta_t : ℚ := ev.timeStamp - c.state.timeStamp
    let vels : Vector2 := if mov._blocked then c.state.velocities
                          else calculateVelocities mov.delta delta_t
    let isTap : Bool :=
      if c.state._isTap ∧
         TAP_DISTANCE_THRESHOLD * TAP_DISTANCE_THRESHOLD ≤ calculateDistanceSq mov._movement
      then false else c.state._isTap
    let s1 : RState :=
      { applyMovement c.state mov with
        timeStamp := ev.timeStamp
        elapsedTime := ev.timeStamp - c.state.startTime
        velocities := vels
        _isTap := isTap }
    fireGestureHandler handler false { state := s1, shared := sh1, timer := c.timer }

/-- `onDragStart(event)` from DragRecognizer.ts.  The drag starts only if
the gesture is enabled and not already active; the pointer id is locked
first; then with a positive configured delay the start is deferred — the
session is marked pending and the (persisted) event parked in the timer
— otherwise the drag starts synchronously. -/
def onDragStart (cfg : DragConfig) (handler : Handler) (ev : Ev) (c : Ctrl) : Ctrl × Bool :=
  if ¬(cfg.enabled ∧ ¬c.state._active) then (c, false)
  else
    let c1 : Ctrl := { c with state := { c.state with _pointerId := some ev.pointerId } }
    if 0 < cfg.delay then
      ({ c1 with state := { c1.state with _delayedEvent := true }, timer := some ev }, false)
    else startDrag cfg handler ev c1

/-- The delay timer firing: `setTimeout(this.startDrag.bind(this),
this.config.delay, event)` — the callback runs `startDrag` on the parked
event, the platform timer being consumed. -/
def timerFire (cfg : DragConfig) (handler : Handler) (c : Ctrl) : Ctrl × Bool :=
  match c.timer with
  | none => (c, false)
  | some ev => startDrag cfg handler ev { c with timer := none }

/-- A completed drag session, as a raw-input script: one pointer id, a
pointer-down at `t0` with coordinates `v0`, a list of pointer-move
samples (timestamp, coordinates) with the pointer still down, and a
pointer-up at `tEnd`. -/
structure Sess where
  pid : ℤ
  t0 : ℚ
  v0 : Vector2
  moves : List (ℚ × Vector2)
  tEnd : ℚ
  deriving DecidableEq

/-- The pointer-down event of a session. -/
def Sess.startEv (s : Sess) : Ev :=
  { pointerId := s.pid, timeStamp := s.t0, values := s.v0, down := true, buttons := 1, touches := 0 }

/-- A pointer-move event of a session: the pointer is still down. -/
def Sess.moveEv (s : Sess) (tv : ℚ × Vector2) : Ev :=
  { pointerId := s.pid, timeStamp := tv.1, values := tv.2, down := true, buttons := 1, touches := 0 }

/-- The pointer-up event of a session: no buttons or touches left. -/
def Sess.endEv (s : Sess) : Ev :=
  { pointerId := s.pid, timeStamp := s.tEnd, values := (0, 0), down := false, buttons := 0, touches := 0 }

/-- Running one completed session through the drag recognizer entry
points: `onDragStart`, then `onDragChange` for each move sample, then
`onDragEnd`. -/
def runSession (cfg : DragConfig) (handler : Handler) (c : Ctrl) (s : Sess) : Ctrl :=
  let c1 := (onDragStart cfg handler s.startEv c).1
  let c2 := s.moves.foldl (fun acc tv => (onDragChange cfg handler (s.moveEv tv) acc).1) c1
  (onDragEnd cfg handler s.endEv c2).1

/-- Running a sequence of completed sessions. -/
def runSessions (cfg : DragConfig) (handler : Handler) (c : Ctrl) (l : List Sess) : Ctrl :=
  l.foldl (runSession cfg handler) c

/-- Each session's final (threshold-adjusted, pre-rubberband) movement,
read off the state in which the session ends. -/
def finalMovements (cfg : DragConfig) (handler : Handler) (c : Ctrl) : List Sess → List Vector2
  | [] => []
  | s :: rest =>
    let c' := runSession cfg handler c s
    preMovement cfg c'.state._movement c'.state._intentional :: finalMovements cfg handler c' rest

/-- The controller data at construction: fresh drag state, idle shared
state, no pending timer. -/
def initCtrl : Ctrl :=
  { state := initDragState
    shared := { down := false, buttons := 0, touches := 0, dragging := false }
    timer := none }

/-- A handler returning `undefined` (keeps the previous memo). -/
def handlerNone : Handler := fun _ _ => none

/-- Modelled from the spec: `ensureVector` from src/utils/utils.ts is not
under src/.  It turns a scalar into a pair, passes a vector through, and
substitutes the given fallback when the value is absent. -/
def ensureVector (value : Option (ℚ ⊕ Vector2)) (fallback : Vector2) : Vector2 :=
  match value with
  | none => fallback
  | some (Sum.inl q) => (q, q)
  | some (Sum.inr v) => v

/-- The `rubberband` normalizer of `InternalGestureOptionsNormalizers` in
utils/config.ts: default value 0; `true` resolves to the default
rubberband constant on both axes, `false` to `(0, 0)`, and numbers and
vectors pass through `ensureVector`. -/
def rubberbandNorm (value : Option (Bool ⊕ (ℚ ⊕ Vector2))) : Vector2 :=
  match value with
  | none => ensureVector (some (Sum.inl 0)) (0, 0)
  | some (Sum.inl true) => ensureVector (some (Sum.inl DEFAULT_RUBBERBAND)) (0, 0)
  | some (Sum.inl false) => ensureVector (some (Sum.inl 0)) (0, 0)
  | some (Sum.inr v) => ensureVector (some v) (0, 0)

/-- The `delay` normalizer of `InternalDragOptionsNormalizers` in
utils/config.ts: default value 0; `true` resolves to the default drag
delay, `false` to 0, and numbers pass through. -/
def delayNorm (value : Option (Bool ⊕ ℚ)) : ℚ :=
  match value with
  | none => 0
  | some (Sum.inl true) => DEFAULT_DRAG_DELAY
  | some (Sum.inl false) => 0
  | some (Sum.inr q) => q

/-- The `swipeVelocity` normalizer of `InternalDragOptionsNormalizers` in
utils/config.ts: `ensureVector(v = DEFAULT_SWIPE_VELOCITY)`. -/
def swipeVelocityNorm (value : Option (ℚ ⊕ Vector2)) : Vector2 :=
  match value with
  | none => (DEFAULT_SWIPE_VELOCITY, DEFAULT_SWIPE_VELOCITY)
  | some v => ensureVector (some v) (DEFAULT_SWIPE_VELOCITY, DEFAULT_SWIPE_VELOCITY)

/-- The `swipeDistance` normalizer of `InternalDragOptionsNormalizers` in
utils/config.ts: `ensureVector(v = DEFAULT_SWIPE_DISTANCE)`. -/
def swipeDistanceNorm (value : Option (ℚ ⊕ Vector2)) : Vector2 :=
  match value with
  | none => (DEFAULT_SWIPE_DISTANCE, DEFAULT_SWIPE_DISTANCE)
  | some v => ensureVector (some v) (DEFAULT_SWIPE_DISTANCE, DEFAULT_SWIPE_DISTANCE)

/-- The resolved drag options for a user supplying no options: every field
at its documented default (threshold `(0,0)`, no rubberband, infinite
bounds, zero initial, no delay, swipe defaults, no tap filtering). -/
def defaultDragConfig : DragConfig :=
  { enabled := true
    threshold := (0, 0)
    rubberband := (0, 0)
    boundsX := (none, none)
    boundsY := (none, none)
    initial := (0, 0)
    delay := 0
    swipeVelocity := (DEFAULT_SWIPE_VELOCITY, DEFAULT_SWIPE_VELOCITY)
    swipeDistance := (DEFAULT_SWIPE_DISTANCE, DEFAULT_SWIPE_DISTANCE)
    filterTaps := false }

/-- Iterated movement recomputation: successive samples of one active
session, each handled by `getMovement` and spread onto the state. -/
def iterateMovement (cfg : DragConfig) (s : RState) : List Vector2 → RState
  | [] => s
  | v :: rest => iterateMovement cfg (applyMovement s (getMovement cfg v s)) rest

/-!
Helper lemmas: which fields each operation writes.  These are shared
bookkeeping facts used by several of the claim proofs below.
-/

@[simp] theorem getMovement_blocked_eq (cfg : DragConfig) (v : Vector2) (s : RState) :
    (getMovement cfg v s)._blocked = false := rfl

@[simp] theorem getMovement_movement_raw (cfg : DragConfig) (v : Vector2) (s : RState) :
    (getMovement cfg v s)._movement = subV v s.initial := rfl

theorem getMovement_offset_eq (cfg : DragConfig) (v : Vector2) (s : RState) :
    (getMovement cfg v s).offset =
      computeRubberband cfg
        (addV (preMovement cfg (subV v s.initial) ((getMovement cfg v s)._intentional)) s.lastOffset)
        (if s._active then cfg.rubberband else (0, 0)) := rfl

@[simp] theorem applyMovement_active (t : RState) (m : MovementUpdate) :
    (applyMovement t m)._active = t._active := by
  unfold applyMovement; split <;> rfl

@[simp] theorem applyMovement_canceled (t : RState) (m : MovementUpdate) :
    (applyMovement t m).canceled = t.canceled := by
  unfold applyMovement; split <;> rfl

@[simp] theorem applyMovement_pointerId (t : RState) (m : MovementUpdate) :
    (applyMovement t m)._pointerId = t._pointerId := by
  unfold applyMovement; split <;> rfl

@[simp] theorem applyMovement_initial (t : RState) (m : MovementUpdate) :
    (applyMovement t m).initial = t.initial := by
  unfold applyMovement; split <;> rfl

@[simp] theorem applyMovement_lastOffset (t : RState) (m : MovementUpdate) :
    (applyMovement t m).lastOffset = t.lastOffset := by
  unfold applyMovement; split <;> rfl

@[simp] theorem applyMovement_startTime (t : RState) (m : MovementUpdate) :
    (applyMovement t m).startTime = t.startTime := by
  unfold applyMovement; split <;> rfl

@[simp] theorem applyMovement_isTap (t : RState) (m : MovementUpdate) :
    (applyMovement t m)._isTap = t._isTap := by
  unfold applyMovement; split <;> rfl

@[simp] theorem applyMovement_tap (t : RState) (m : MovementUpdate) :
    (applyMovement t m).tap = t.tap := by
  unfold applyMovement; split <;> rfl

@[simp] theorem applyMovement_swipe (t : RState) (m : MovementUpdate) :
    (applyMovement t m).swipe = t.swipe := by
  unfold applyMovement; split <;> rfl

@[simp] theorem applyMovement_delayedEvent (t : RState) (m : MovementUpdate) :
    (applyMovement t m)._delayedEvent = t._delayedEvent := by
  unfold applyMovement; split <;> rfl

@[simp] theorem applyMovement_velocities (t : RState) (m : MovementUpdate) :
    (applyMovement t m).velocities = t.velocities := by
  unfold applyMovement; split <;> rfl

@[simp] theorem applyMovement_intentional (t : RState) (m : MovementUpdate) :
    (applyMovement t m)._intentional = m._intentional := by
  unfold applyMovement; split <;> rfl

@[simp] theorem applyMovement_blocked_of_not (t : RState) (m : MovementUpdate)
    (h : m._blocked = false) : (applyMovement t m)._blocked = false := by
  unfold applyMovement; rw [h]; rfl

@[simp] theorem applyMovement_offset_of_not (t : RState) (m : MovementUpdate)
    (h : m._blocked = false) : (applyMovement t m).offset = m.offset := by
  unfold applyMovement; rw [h]; rfl

@[simp] theorem applyMovement_movement_of_not (t : RState) (m : MovementUpdate)
    (h : m._blocked = false) : (applyMovement t m)._movement = m._movement := by
  unfold applyMovement; rw [h]; rfl

@[simp] theorem applyMovement_values_of_not (t : RState) (m : MovementUpdate)
    (h : m._blocked = false) : (applyMovement t m).values = m.values := by
  unfold applyMovement; rw [h]; rfl

theorem fireGestureHandler_state_fields (hd : Handler) (f : Bool) (c : Ctrl) :
    ((fireGestureHandler hd f c).1).state._intentional = c.state._intentional ∧
    ((fireGestureHandler hd f c).1).state._blocked = c.state._blocked ∧
    ((fireGestureHandler hd f c).1).state._movement = c.state._movement ∧
    ((fireGestureHandler hd f c).1).state.movement = c.state.movement ∧
    ((fireGestureHandler hd f c).1).state.values = c.state.values ∧
    ((fireGestureHandler hd f c).1).state.initial = c.state.initial ∧
    ((fireGestureHandler hd f c).1).state._initial = c.state._initial ∧
    ((fireGestureHandler hd f c).1).state.offset = c.state.offset ∧
    ((fireGestureHandler hd f c).1).state.lastOffset = c.state.lastOffset ∧
    ((fireGestureHandler hd f c).1).state.delta = c.state.delta ∧
    ((fireGestureHandler hd f c).1).state.velocities = c.state.velocities ∧
    ((fireGestureHandler hd f c).1).state._isTap = c.state._isTap ∧
    ((fireGestureHandler hd f c).1).state.tap = c.state.tap ∧
    ((fireGestureHandler hd f c).1).state.swipe = c.state.swipe ∧
    ((fireGestureHandler hd f c).1).state.canceled = c.state.canceled ∧
    ((fireGestureHandler hd f c).1).state._pointerId = c.state._pointerId ∧
    ((fireGestureHandler hd f c).1).state.startTime = c.state.startTime ∧
    ((fireGestureHandler hd f c).1).state.timeStamp = c.state.timeStamp ∧
    ((fireGestureHandler hd f c).1).state.elapsedTime = c.state.elapsedTime := by
  unfold fireGestureHandler
  split
  · repeat' constructor
  · split
    · repeat' constructor
    · dsimp only
      split <;> repeat' constructor

@[simp] theorem fireGestureHandler_intentional (hd : Handler) (f : Bool) (c : Ctrl) :
    ((fireGestureHandler hd f c).1).state._intentional = c.state._intentional :=
  (fireGestureHandler_state_fields hd f c).1

@[simp] theorem fireGestureHandler_movement_raw (hd : Handler) (f : Bool) (c : Ctrl) :
    ((fireGestureHandler hd f c).1).state._movement = c.state._movement :=
  (fireGestureHandler_state_fields hd f c).2.2.1

@[simp] theorem fireGestureHandler_initial (hd : Handler) (f : Bool) (c : Ctrl) :
    ((fireGestureHandler hd f c).1).state.initial = c.state.initial :=
  (fireGestureHandler_state_fields hd f c).2.2.2.2.2.1

@[simp] theorem fireGestureHandler_offset (hd : Handler) (f : Bool) (c : Ctrl) :
    ((fireGestureHandler hd f c).1).state.offset = c.state.offset :=
  (fireGestureHandler_state_fields hd f c).2.2.2.2.2.2.2.1

@[simp] theorem fireGestureHandler_lastOffset (hd : Handler) (f : Bool) (c : Ctrl) :
    ((fireGestureHandler hd f c).1).state.lastOffset = c.state.lastOffset :=
  (fireGestureHandler_state_fields hd f c).2.2.2.2.2.2.2.2.1

@[simp] theorem fireGestureHandler_isTap (hd : Handler) (f : Bool) (c : Ctrl) :
    ((fireGestureHandler hd f c).1).state._isTap = c.state._isTap :=
  (fireGestureHandler_state_fields hd f c).2.2.2.2.2.2.2.2.2.2.2.1

@[simp] theorem fireGestureHandler_tap (hd : Handler) (f : Bool) (c : Ctrl) :
    ((fireGestureHandler hd f c).1).state.tap = c.state.tap :=
  (fireGestureHandler_state_fields hd f c).2.2.2.2.2.2.2.2.2.2.2.2.1

@[simp] theorem fireGestureHandler_swipe (hd : Handler) (f : Bool) (c : Ctrl) :
    ((fireGestureHandler hd f c).1).state.swipe = c.state.swipe :=
  (fireGestureHandler_state_fields hd f c).2.2.2.2.2.2.2.2.2.2.2.2.2.1

@[simp] theorem fireGestureHandler_canceled (hd : Handler) (f : Bool) (c : Ctrl) :
    ((fireGestureHandler hd f c).1).state.canceled = c.state.canceled :=
  (fireGestureHandler_state_fields hd f c).2.2.2.2.2.2.2.2.2.2.2.2.2.2.1

@[simp] theorem fireGestureHandler_pointerId (hd : Handler) (f : Bool) (c : Ctrl) :
    ((fireGestureHandler hd f c).1).state._pointerId = c.state._pointerId :=
  (fireGestureHandler_state_fields hd f c).2.2.2.2.2.2.2.2.2.2.2.2.2.2.2.1

@[simp] theorem fireGestureHandler_startTime (hd : Handler) (f : Bool) (c : Ctrl) :
    ((fireGestureHandler hd f c).1).state.startTime = c.state.startTime :=
  (fireGestureHandler_state_fields hd f c).2.2.2.2.2.2.2.2.2.2.2.2.2.2.2.2.1

@[simp] theorem fireGestureHandler_blocked (hd : Handler) (f : Bool) (c : Ctrl) :
    ((fireGestureHandler hd f c).1).state._blocked = c.state._blocked :=
  (fireGestureHandler_state_fields hd f c).2.1

@[simp] theorem fireGestureHandler_active_of_not_blocked (hd : Handler) (f : Bool) (c : Ctrl)
    (h : c.state._blocked = false) :
    ((fireGestureHandler hd f c).1).state._active = c.state._active := by
  unfold fireGestureHandler
  rw [h]
  simp only [Bool.false_eq_true, if_false]
  split
  · rfl
  · split <;> rfl

@[simp] theorem fireGestureHandler_timer_of_active (hd : Handler) (f : Bool) (c : Ctrl)
    (hb : c.state._blocked = false) (ha : c.state._active = true) :
    ((fireGestureHandler hd f c).1).timer = c.timer := by
  unfold fireGestureHandler
  rw [hb, ha]
  simp only [Bool.false_eq_true, if_false]
  split
  · rfl
  · simp

theorem fireGestureHandler_fired_timer_none (hd : Handler) (f : Bool) (c : Ctrl)
    (ha : c.state._active = false) (hf : (fireGestureHandler hd f c).2 = true) :
    ((fireGestureHandler hd f c).1).timer = none := by
  unfold fireGestureHandler at hf ⊢
  by_cases hb : c.state._blocked = true
  · rw [if_pos hb] at hf; simp at hf
  · rw [if_neg hb] at hf ⊢
    by_cases hi : ¬f = true ∧ c.state._intentional.1 = none ∧ c.state._intentional.2 = none
    · rw [if_pos hi] at hf; simp at hf
    · rw [if_neg hi] at hf ⊢
      rw [ha]
      simp only [Bool.false_eq_true, if_false]

/-- Claim C7: for every sample, if the elapsed time since the previous
sample (`delta_t`) equals 0, then `velocity == 0` and
`velocities == (0,0)`; the kinematics functions never divide by zero
(the `delta_t ?` guards select the zero constants instead of dividing). -/
theorem C7_zero_dt_zero_velocity (hypotDelta len : ℚ) (delta : Vector2) (delta_t : ℚ)
    (h : delta_t = 0) :
    calculateVelocity hypotDelta delta_t len = 0 ∧
    calculateVelocities delta delta_t = (0, 0) := by
  subst h
  exact ⟨by simp [calculateVelocity], by simp [calculateVelocities]⟩

/-- Witness for C7 at a concrete sample. -/
theorem C7_zero_dt_zero_velocity_witness :
    (0 : ℚ) = 0 ∧
    (calculateVelocity 5 0 3 = 0 ∧ calculateVelocities (1, 2) 0 = (0, 0)) :=
  ⟨rfl, C7_zero_dt_zero_velocity 5 3 (1, 2) 0 rfl⟩

/-- Claim C9: the config resolver maps option values to the documented
defaults for every partial input: `rubberband` resolves `true` to
`(0.15, 0.15)`, `false` to `(0, 0)`, and passes numeric and vector
values through; `delay` resolves `true` to 180 ms, `false` to 0, and
passes numbers through; absent `swipeVelocity` defaults to `(0.5, 0.5)`
and absent `swipeDistance` defaults to `(60, 60)`. -/
theorem C9_config_resolver_defaults :
    rubberbandNorm (some (Sum.inl true)) = (0.15, 0.15) ∧
    rubberbandNorm (some (Sum.inl false)) = (0, 0) ∧
    (∀ q : ℚ, rubberbandNorm (some (Sum.inr (Sum.inl q))) = (q, q)) ∧
    (∀ v : Vector2, rubberbandNorm (some (Sum.inr (Sum.inr v))) = v) ∧
    delayNorm (some (Sum.inl true)) = 180 ∧
    delayNorm (some (Sum.inl false)) = 0 ∧
    (∀ q : ℚ, delayNorm (some (Sum.inr q)) = q) ∧
    swipeVelocityNorm none = (0.5, 0.5) ∧
    swipeDistanceNorm none = (60, 60) :=
  ⟨rfl, rfl, fun _ => rfl, fun _ => rfl, rfl, rfl, fun _ => rfl, rfl, rfl⟩

/-- Claim C10: when `fireGestureHandler` is called with `_blocked` false,
both components of `_intentional` equal `false`, and no force flag, it
returns null (`fired = false`) without invoking the handler and without
modifying any gesture state — the whole controller data, including
`active`, `first`, `last`, `memo` and the shared per-kind flag, is
returned unchanged. -/
theorem C10_unintentional_not_fired (handler : Handler) (c : Ctrl)
    (hb : c.state._blocked = false)
    (hi : c.state._intentional = (none, none)) :
    fireGestureHandler handler false c = (c, false) := by
  unfold fireGestureHandler
  rw [hb]
  simp [hi]

/-- Witness for C10 at the freshly constructed controller. -/
theorem C10_unintentional_not_fired_witness :
    initCtrl.state._blocked = false ∧
    initCtrl.state._intentional = (none, none) ∧
    fireGestureHandler handlerNone false initCtrl = (initCtrl, false) :=
  ⟨rfl, rfl, C10_unintentional_not_fired handlerNone initCtrl rfl rfl⟩

/-- Claim C8: a drag-change or drag-end sample whose pointer identifier
differs from the session's recorded `_pointerId` is silently ignored:
the handler is not invoked (`fired = false`) and the drag gesture state,
the shared state and the timer are left completely unchanged. -/
theorem C8_pointer_mismatch_ignored (cfg : DragConfig) (handler : Handler) (ev : Ev)
    (c : Ctrl) (h : c.state._pointerId ≠ some ev.pointerId) :
    onDragChange cfg handler ev c = (c, false) ∧
    onDragEnd cfg handler ev c = (c, false) := by
  have h' : some ev.pointerId ≠ c.state._pointerId := fun e => h e.symm
  constructor
  · unfold onDragChange
    simp [h']
  · unfold onDragEnd
    simp [h']

/-- Witness for C8: a sample from pointer 7 against a session locked to
pointer 1. -/
theorem C8_pointer_mismatch_ignored_witness :
    ({ initCtrl with state := { initCtrl.state with _pointerId := some 1 } } : Ctrl).state._pointerId ≠
        some (7 : ℤ) ∧
    (onDragChange defaultDragConfig handlerNone
        ⟨7, 5, (2, 3), true, 1, 0⟩
        { initCtrl with state := { initCtrl.state with _pointerId := some 1 } } =
      ({ initCtrl with state := { initCtrl.state with _pointerId := some 1 } }, false) ∧
     onDragEnd defaultDragConfig handlerNone
        ⟨7, 5, (2, 3), true, 1, 0⟩
        { initCtrl with state := { initCtrl.state with _pointerId := some 1 } } =
      ({ initCtrl with state := { initCtrl.state with _pointerId := some 1 } }, false)) :=
  ⟨by decide,
   C8_pointer_mismatch_ignored defaultDragConfig handlerNone
     ⟨7, 5, (2, 3), true, 1, 0⟩
     { initCtrl with state := { initCtrl.state with _pointerId := some 1 } } (by decide)⟩

theorem getMovement_keep_x (cfg : DragConfig) (v : Vector2) (s : RState) (a : ℚ)
    (h : s._intentional.1 = some a) : (getMovement cfg v s)._intentional.1 = some a := by
  simp [getMovement, h]

theorem getMovement_keep_y (cfg : DragConfig) (v : Vector2) (s : RState) (b : ℚ)
    (h : s._intentional.2 = some b) : (getMovement cfg v s)._intentional.2 = some b := by
  simp [getMovement, h]

theorem iterateMovement_keep_x (cfg : DragConfig) (l : List Vector2) :
    ∀ (s : RState) (a : ℚ), s._intentional.1 = some a →
      (iterateMovement cfg s l)._intentional.1 = some a := by
  induction l with
  | nil => intro s a h; simpa [iterateMovement] using h
  | cons v rest ih =>
    intro s a h
    simp only [iterateMovement]
    exact ih _ a (by rw [applyMovement_intentional]; exact getMovement_keep_x cfg v s a h)

theorem iterateMovement_keep_y (cfg : DragConfig) (l : List Vector2) :
    ∀ (s : RState) (b : ℚ), s._intentional.2 = some b →
      (iterateMovement cfg s l)._intentional.2 = some b := by
  induction l with
  | nil => intro s b h; simpa [iterateMovement] using h
  | cons v rest ih =>
    intro s b h
    simp only [iterateMovement]
    exact ih _ b (by rw [applyMovement_intentional]; exact getMovement_keep_y cfg v s b h)

/-- Claim C6: per-axis intentionality is monotonic within one active
session: `_intentional[axis]` is recomputed by `getMovement` only while
it is `false` (`none`); on the sample where `|displacement|` first
reaches `threshold[axis]` it becomes `sign(displacement) *
threshold[axis]`; and once set it keeps exactly that value for every
later sample of the session. -/
theorem C6_intentional_monotonic (cfg : DragConfig) (v : Vector2) (s : RState) :
    (∀ a : ℚ, s._intentional.1 = some a → (getMovement cfg v s)._intentional.1 = some a) ∧
    (∀ b : ℚ, s._intentional.2 = some b → (getMovement cfg v s)._intentional.2 = some b) ∧
    (s._intentional.1 = none → cfg.threshold.1 ≤ |(subV v s.initial).1| →
      (getMovement cfg v s)._intentional.1 =
        some (jsSign (subV v s.initial).1 * cfg.threshold.1)) ∧
    (s._intentional.2 = none → cfg.threshold.2 ≤ |(subV v s.initial).2| →
      (getMovement cfg v s)._intentional.2 =
        some (jsSign (subV v s.initial).2 * cfg.threshold.2)) ∧
    (∀ (l : List Vector2) (a : ℚ), s._intentional.1 = some a →
      (iterateMovement cfg s l)._intentional.1 = some a) ∧
    (∀ (l : List Vector2) (b : ℚ), s._intentional.2 = some b →
      (iterateMovement cfg s l)._intentional.2 = some b) := by
  refine ⟨fun a h => getMovement_keep_x cfg v s a h,
          fun b h => getMovement_keep_y cfg v s b h,
          fun h hth => ?_, fun h hth => ?_,
          fun l a h => iterateMovement_keep_x cfg l s a h,
          fun l b h => iterateMovement_keep_y cfg l s b h⟩
  · simp [getMovement, h, getIntentionalDisplacement, hth]
  · simp [getMovement, h, getIntentionalDisplacement, hth]

/-- Witness for C6: axis x frozen at its crossing value 2, axis y
crossing a zero threshold on this sample. -/
theorem C6_intentional_monotonic_witness :
    ({ initDragState with _intentional := ((some 2 : Option ℚ), none) } : RState)._intentional.1 =
        some 2 ∧
    (getMovement defaultDragConfig (9, 9)
        { initDragState with _intentional := ((some 2 : Option ℚ), none) })._intentional.1 =
      some 2 ∧
    ({ initDragState with _intentional := ((some 2 : Option ℚ), none) } : RState)._intentional.2 =
        none ∧
    (getMovement defaultDragConfig (9, 9)
        { initDragState with _intentional := ((some 2 : Option ℚ), none) })._intentional.2 =
      some (jsSign (subV (9, 9) (0, 0)).2 * defaultDragConfig.threshold.2) ∧
    (iterateMovement defaultDragConfig
        { initDragState with _intentional := ((some 2 : Option ℚ), none) }
        [(1, 1), (4, 4)])._intentional.1 = some 2 :=
  ⟨rfl,
   (C6_intentional_monotonic defaultDragConfig (9, 9)
      { initDragState with _intentional := ((some 2 : Option ℚ), none) }).1 2 rfl,
   rfl,
   (C6_intentional_monotonic defaultDragConfig (9, 9)
      { initDragState with _intentional := ((some 2 : Option ℚ), none) }).2.2.2.1 rfl
      (by norm_num [subV, initDragState, defaultDragConfig]),
   (C6_intentional_monotonic defaultDragConfig (9, 9)
      { initDragState with _intentional := ((some 2 : Option ℚ), none) }).2.2.2.2.1
      [(1, 1), (4, 4)] 2 rfl⟩

theorem jsSign_eq_zero_iff (q : ℚ) : jsSign q = 0 ↔ q = 0 := by
  unfold jsSign
  split_ifs with h1 h2
  · constructor
    · intro h; exact absurd h one_ne_zero
    · intro h; subst h; exact absurd h1 (lt_irrefl 0)
  · constructor
    · intro h; exact absurd h (by norm_num)
    · intro h; subst h; exact absurd h2 (lt_irrefl 0)
  · constructor
    · intro _; linarith
    · intro _; rfl

/-- Claim C2: for every drag session, the swipe value stored at release
equals `sign(velocity[axis])` when the session's `elapsedTime` is
strictly below `SWIPE_MAX_ELAPSED_TIME` (220 ms), that axis was
intentional, `|velocity[axis]| > swipeVelocity[axis]` and
`|movement[axis]| > swipeDistance[axis]`, and 0 in every other case;
hence (for the nonnegative velocity thresholds the resolver produces)
`swipe[axis]` is nonzero exactly when those four conditions hold. -/
theorem C2_swipe_iff (cfg : DragConfig) (handler : Handler) (ev : Ev) (c : Ctrl)
    (hp : c.state._pointerId = some ev.pointerId) :
    (((onDragEnd cfg handler ev c).1).state.swipe.1 =
      if ev.timeStamp - c.state.startTime < SWIPE_MAX_ELAPSED_TIME ∧
         c.state._intentional.1 ≠ none ∧
         cfg.swipeVelocity.1 < |c.state.velocities.1| ∧
         cfg.swipeDistance.1 < |c.state.movement.1|
      then jsSign c.state.velocities.1 else 0) ∧
    (((onDragEnd cfg handler ev c).1).state.swipe.2 =
      if ev.timeStamp - c.state.startTime < SWIPE_MAX_ELAPSED_TIME ∧
         c.state._intentional.2 ≠ none ∧
         cfg.swipeVelocity.2 < |c.state.velocities.2| ∧
         cfg.swipeDistance.2 < |c.state.movement.2|
      then jsSign c.state.velocities.2 else 0) ∧
    (0 ≤ cfg.swipeVelocity.1 →
      (((onDragEnd cfg handler ev c).1).state.swipe.1 ≠ 0 ↔
        (ev.timeStamp - c.state.startTime < SWIPE_MAX_ELAPSED_TIME ∧
         c.state._intentional.1 ≠ none ∧
         cfg.swipeVelocity.1 < |c.state.velocities.1| ∧
         cfg.swipeDistance.1 < |c.state.movement.1|))) ∧
    (0 ≤ cfg.swipeVelocity.2 →
      (((onDragEnd cfg handler ev c).1).state.swipe.2 ≠ 0 ↔
        (ev.timeStamp - c.state.startTime < SWIPE_MAX_ELAPSED_TIME ∧
         c.state._intentional.2 ≠ none ∧
         cfg.swipeVelocity.2 < |c.state.velocities.2| ∧
         cfg.swipeDistance.2 < |c.state.movement.2|))) := by
  have hne : ¬(some ev.pointerId ≠ c.state._pointerId) := by rw [hp]; exact not_ne_iff.mpr rfl
  have hx : ((onDragEnd cfg handler ev c).1).state.swipe.1 =
      if ev.timeStamp - c.state.startTime < SWIPE_MAX_ELAPSED_TIME ∧
         c.state._intentional.1 ≠ none ∧
         cfg.swipeVelocity.1 < |c.state.velocities.1| ∧
         cfg.swipeDistance.1 < |c.state.movement.1|
      then jsSign c.state.velocities.1 else 0 := by
    unfold onDragEnd
    rw [if_neg hne]
    rw [fireGestureHandler_swipe]
  have hy : ((onDragEnd cfg handler ev c).1).state.swipe.2 =
      if ev.timeStamp - c.state.startTime < SWIPE_MAX_ELAPSED_TIME ∧
         c.state._intentional.2 ≠ none ∧
         cfg.swipeVelocity.2 < |c.state.velocities.2| ∧
         cfg.swipeDistance.2 < |c.state.movement.2|
      then jsSign c.state.velocities.2 else 0 := by
    unfold onDragEnd
    rw [if_neg hne]
    rw [fireGestureHandler_swipe]
  refine ⟨hx, hy, fun hsv => ?_, fun hsv => ?_⟩
  · rw [hx]
    split_ifs with hcond
    · have hvne : c.state.velocities.1 ≠ 0 := by
        intro h0
        have := hcond.2.2.1
        rw [h0] at this
        simp at this
        linarith
      simp [hcond, (jsSign_eq_zero_iff c.state.velocities.1).not.mpr hvne]
    · simp [hcond]
  · rw [hy]
    split_ifs with hcond
    · have hvne : c.state.velocities.2 ≠ 0 := by
        intro h0
        have := hcond.2.2.1
        rw [h0] at this
        simp at this
        linarith
      simp [hcond, (jsSign_eq_zero_iff c.state.velocities.2).not.mpr hvne]
    · simp [hcond]

/-- Witness for C2: a released drag (pointer 1, 100 ms, movement (80,5),
per-axis velocities (0.9, 0)) against the default thresholds. -/
theorem C2_swipe_iff_witness :
    ({ initCtrl with state :=
        { initDragState with
          _pointerId := some 1, _active := true, velocities := (0.9, 0),
          movement := (80, 5), _intentional := ((some 0 : Option ℚ), none),
          values := (80, 5) } } : Ctrl).state._pointerId = some (1 : ℤ) ∧
    (((onDragEnd defaultDragConfig handlerNone ⟨1, 100, (0, 0), false, 0, 0⟩
        { initCtrl with state :=
          { initDragState with
            _pointerId := some 1, _active := true, velocities := (0.9, 0),
            movement := (80, 5), _intentional := ((some 0 : Option ℚ), none),
            values := (80, 5) } }).1).state.swipe.1 =
      if (100 : ℚ) - ({ initDragState with
            _pointerId := some 1, _active := true, velocities := (0.9, 0),
            movement := (80, 5), _intentional := ((some 0 : Option ℚ), none),
            values := (80, 5) } : RState).startTime < SWIPE_MAX_ELAPSED_TIME ∧
         (((some 0 : Option ℚ), (none : Option ℚ)).1 ≠ none) ∧
         defaultDragConfig.swipeVelocity.1 < |((0.9 : ℚ), (0 : ℚ)).1| ∧
         defaultDragConfig.swipeDistance.1 < |((80 : ℚ), (5 : ℚ)).1|
      then jsSign ((0.9 : ℚ), (0 : ℚ)).1 else 0) := by
  constructor
  · decide
  · exact (C2_swipe_iff defaultDragConfig handlerNone ⟨1, 100, (0, 0), false, 0, 0⟩
      { initCtrl with state :=
        { initDragState with
          _pointerId := some 1, _active := true, velocities := (0.9, 0),
          movement := (80, 5), _intentional := ((some 0 : Option ℚ), none),
          values := (80, 5) } } (by decide)).1

theorem fireGestureHandler_fires (hd : Handler) (f : Bool) (c : Ctrl)
    (hb : c.state._blocked = false) (hf : f = true) :
    (fireGestureHandler hd f c).2 = true := by
  unfold fireGestureHandler
  rw [hb, hf]
  simp only [Bool.false_eq_true, if_false, not_true, false_and, if_false]
  split <;> rfl

/-- Claim C3 counterexample: with `filterTaps` configured (raising the
threshold to (3,3)), a drag session that ends while still flagged as a
tap DOES invoke the handler on its end frame — `onDragEnd` passes
`filterTaps && _isTap` as the force flag, so the call fires even though
neither axis is intentional. -/
theorem C3_filterTaps_counterexample :
    ((onDragStart { defaultDragConfig with filterTaps := true, threshold := (3, 3) }
        handlerNone ⟨1, 0, (0, 0), true, 1, 0⟩ initCtrl).1).state._isTap = true ∧
    ((onDragStart { defaultDragConfig with filterTaps := true, threshold := (3, 3) }
        handlerNone ⟨1, 0, (0, 0), true, 1, 0⟩ initCtrl).1).state._intentional = (none, none) ∧
    (onDragEnd { defaultDragConfig with filterTaps := true, threshold := (3, 3) }
        handlerNone ⟨1, 100, (0, 0), false, 0, 0⟩
        (onDragStart { defaultDragConfig with filterTaps := true, threshold := (3, 3) }
          handlerNone ⟨1, 0, (0, 0), true, 1, 0⟩ initCtrl).1).2 = true := by
  refine ⟨?_, ?_, ?_⟩ <;>
    norm_num +decide [onDragStart, onDragChange, onDragEnd, startDrag, fireGestureHandler,
      applyMovement, getMovement, getStartGestureState, initDragState, initCtrl,
      getIntentionalDisplacement, preMovement, computeRubberband, rubberbandIfOutOfBounds,
      addV, subV, jsSign, calculateVelocities, calculateDistanceSq, handlerNone,
      defaultDragConfig, TAP_DISTANCE_THRESHOLD, SWIPE_MAX_ELAPSED_TIME,
      DEFAULT_SWIPE_VELOCITY, DEFAULT_SWIPE_DISTANCE]

/-- Claim C3 as amended: if `filterTaps` is configured and a drag session
ends while still flagged as a tap, the end-frame handler call is forced
rather than suppressed: `onDragEnd` passes a true force flag to
`fireGestureHandler`, so the handler is invoked on the end frame even
when neither axis is intentional.  (With `filterTaps`, suppression
happens on the session's intermediate frames instead, where the raised
threshold keeps both axes unintentional.) -/
theorem C3_filterTaps_forced_fire (cfg : DragConfig) (handler : Handler) (ev : Ev)
    (c : Ctrl) (hp : c.state._pointerId = some ev.pointerId)
    (hft : cfg.filterTaps = true) (ht : c.state._isTap = true) :
    (onDragEnd cfg handler ev c).2 = true := by
  have hne : ¬(some ev.pointerId ≠ c.state._pointerId) := by rw [hp]; exact not_ne_iff.mpr rfl
  unfold onDragEnd
  rw [if_neg hne]
  apply fireGestureHandler_fires
  · exact applyMovement_blocked_of_not _ _ (getMovement_blocked_eq _ _ _)
  · simp [hft, ht]

/-- Witness for the amended C3. -/
theorem C3_filterTaps_forced_fire_witness :
    ({ initCtrl with state := { initDragState with _pointerId := some 1 } } : Ctrl).state._pointerId =
        some (1 : ℤ) ∧
    ({ defaultDragConfig with filterTaps := true } : DragConfig).filterTaps = true ∧
    ({ initCtrl with state := { initDragState with _pointerId := some 1 } } : Ctrl).state._isTap =
        true ∧
    (onDragEnd { defaultDragConfig with filterTaps := true } handlerNone
        ⟨1, 100, (0, 0), false, 0, 0⟩
        { initCtrl with state := { initDragState with _pointerId := some 1 } }).2 = true :=
  ⟨by decide, rfl, rfl,
   C3_filterTaps_forced_fire { defaultDragConfig with filterTaps := true } handlerNone
     ⟨1, 100, (0, 0), false, 0, 0⟩
     { initCtrl with state := { initDragState with _pointerId := some 1 } }
     (by decide) rfl rfl⟩

theorem startDrag_state_active (cfg : DragConfig) (hd : Handler) (ev : Ev) (c : Ctrl) :
    ((startDrag cfg hd ev c).1).state._active = true := by
  simp [startDrag, getStartGestureState]

/-- Claim C4 counterexample: with `delay := 180`, after the pointer-down
the session is pending (`_active = false`, timer parked), but a
pointer-move received before the timer fires is NOT ignored: it clears
the pending timer, starts the session (`_active = true`) and changes the
gesture state (the values move to the sample's coordinates). -/
theorem C4_delay_counterexample :
    ((onDragStart { defaultDragConfig with delay := 180 } handlerNone
        ⟨1, 0, (0, 0), true, 1, 0⟩ initCtrl).1).state._active = false ∧
    ((onDragStart { defaultDragConfig with delay := 180 } handlerNone
        ⟨1, 0, (0, 0), true, 1, 0⟩ initCtrl).1).timer = some ⟨1, 0, (0, 0), true, 1, 0⟩ ∧
    ((onDragChange { defaultDragConfig with delay := 180 } handlerNone
        ⟨1, 50, (10, 10), true, 1, 0⟩
        (onDragStart { defaultDragConfig with delay := 180 } handlerNone
          ⟨1, 0, (0, 0), true, 1, 0⟩ initCtrl).1).1).state._active = true ∧
    ((onDragChange { defaultDragConfig with delay := 180 } handlerNone
        ⟨1, 50, (10, 10), true, 1, 0⟩
        (onDragStart { defaultDragConfig with delay := 180 } handlerNone
          ⟨1, 0, (0, 0), true, 1, 0⟩ initCtrl).1).1).timer = none ∧
    ((onDragChange { defaultDragConfig with delay := 180 } handlerNone
        ⟨1, 50, (10, 10), true, 1, 0⟩
        (onDragStart { defaultDragConfig with delay := 180 } handlerNone
          ⟨1, 0, (0, 0), true, 1, 0⟩ initCtrl).1).1).state.values = (10, 10) := by
  refine ⟨?_, ?_, ?_, ?_, ?_⟩ <;>
    norm_num +decide [onDragStart, onDragChange, startDrag, fireGestureHandler,
      applyMovement, getMovement, getStartGestureState, initDragState, initCtrl,
      getIntentionalDisplacement, preMovement, computeRubberband, rubberbandIfOutOfBounds,
      addV, subV, jsSign, calculateVelocities, calculateDistanceSq, handlerNone,
      defaultDragConfig, TAP_DISTANCE_THRESHOLD]

/-- Claim C4 as amended: for a drag with a pending delayed start
(`_active = false`, `_delayedEvent = true`), a pointer-move sample with
the session's pointer id received before the delay timer fires is not
ignored — it clears the pending timer and starts the session
immediately; samples from other pointers leave everything unchanged;
and a pointer release before the timer fires cancels the pending timer
exactly when its end-frame handler call fires. -/
theorem C4_delayed_move_starts (cfg : DragConfig) (handler : Handler) (ev : Ev) (c : Ctrl)
    (hA : c.state._active = false) (hDe : c.state._delayedEvent = true)
    (hc : c.state.canceled = false) :
    (c.state._pointerId = some ev.pointerId →
      onDragChange cfg handler ev c = startDrag cfg handler ev { c with timer := none } ∧
      ((onDragChange cfg handler ev c).1).state._active = true) ∧
    (c.state._pointerId ≠ some ev.pointerId → onDragChange cfg handler ev c = (c, false)) ∧
    (∀ (ev2 : Ev) (c2 : Ctrl), c2.state._pointerId = some ev2.pointerId →
      (onDragEnd cfg handler ev2 c2).2 = true →
      ((onDragEnd cfg handler ev2 c2).1).timer = none) := by
  refine ⟨fun hp => ?_, fun hp => ?_, fun ev2 c2 hp2 hf => ?_⟩
  · have heq : onDragChange cfg handler ev c = startDrag cfg handler ev { c with timer := none } := by
      unfold onDragChange
      rw [if_neg (by rw [hc]; exact Bool.false_ne_true)]
      rw [if_neg (by rw [hp]; exact not_ne_iff.mpr rfl)]
      rw [if_pos (by rw [hA]; exact Bool.false_ne_true)]
      rw [if_pos hDe]
    exact ⟨heq, by rw [heq]; exact startDrag_state_active cfg handler ev _⟩
  · unfold onDragChange
    rw [if_neg (by rw [hc]; exact Bool.false_ne_true)]
    rw [if_pos (fun e => hp e.symm)]
  · have hne2 : ¬(some ev2.pointerId ≠ c2.state._pointerId) := by
      rw [hp2]; exact not_ne_iff.mpr rfl
    unfold onDragEnd at hf ⊢
    rw [if_neg hne2] at hf ⊢
    exact fireGestureHandler_fired_timer_none _ _ _ (by simp) hf

/-- Witness for the amended C4, at a pending delayed start for pointer 1. -/
theorem C4_delayed_move_starts_witness :
    ({ initCtrl with
        state := { initDragState with _pointerId := some 1, _delayedEvent := true },
        timer := some ⟨1, 0, (0, 0), true, 1, 0⟩ } : Ctrl).state._active = false ∧
    ({ initCtrl with
        state := { initDragState with _pointerId := some 1, _delayedEvent := true },
        timer := some ⟨1, 0, (0, 0), true, 1, 0⟩ } : Ctrl).state._delayedEvent = true ∧
    ({ initCtrl with
        state := { initDragState with _pointerId := some 1, _delayedEvent := true },
        timer := some ⟨1, 0, (0, 0), true, 1, 0⟩ } : Ctrl).state.canceled = false ∧
    (({ initCtrl with
        state := { initDragState with _pointerId := some 1, _delayedEvent := true },
        timer := some ⟨1, 0, (0, 0), true, 1, 0⟩ } : Ctrl).state._pointerId =
          some ((⟨1, 50, (10, 10), true, 1, 0⟩ : Ev)).pointerId →
      onDragChange { defaultDragConfig with delay := 180 } handlerNone
          ⟨1, 50, (10, 10), true, 1, 0⟩
          { initCtrl with
            state := { initDragState with _pointerId := some 1, _delayedEvent := true },
            timer := some ⟨1, 0, (0, 0), true, 1, 0⟩ } =
        startDrag { defaultDragConfig with delay := 180 } handlerNone
          ⟨1, 50, (10, 10), true, 1, 0⟩
          { ({ initCtrl with
              state := { initDragState with _pointerId := some 1, _delayedEvent := true },
              timer := some ⟨1, 0, (0, 0), true, 1, 0⟩ } : Ctrl) with timer := none } ∧
      ((onDragChange { defaultDragConfig with delay := 180 } handlerNone
          ⟨1, 50, (10, 10), true, 1, 0⟩
          { initCtrl with
            state := { initDragState with _pointerId := some 1, _delayedEvent := true },
            timer := some ⟨1, 0, (0, 0), true, 1, 0⟩ }).1).state._active = true) :=
  ⟨rfl, rfl, rfl,
   (C4_delayed_move_starts { defaultDragConfig with delay := 180 } handlerNone
      ⟨1, 50, (10, 10), true, 1, 0⟩
      { initCtrl with
        state := { initDragState with _pointerId := some 1, _delayedEvent := true },
        timer := some ⟨1, 0, (0, 0), true, 1, 0⟩ } rfl rfl rfl).1⟩

theorem startDrag_run (cfg : DragConfig) (hd : Handler) (ev : Ev) (c : Ctrl) :
    ((startDrag cfg hd ev c).1).state._active = true ∧
    ((startDrag cfg hd ev c).1).state.canceled = false ∧
    ((startDrag cfg hd ev c).1).state._pointerId = some ev.pointerId ∧
    ((startDrag cfg hd ev c).1).state.initial = ev.values ∧
    ((startDrag cfg hd ev c).1).state.lastOffset = c.state.offset ∧
    ((startDrag cfg hd ev c).1).state._blocked = false ∧
    ((startDrag cfg hd ev c).1).state._isTap = true ∧
    ((startDrag cfg hd ev c).1).timer = c.timer := by
  refine ⟨?_, ?_, ?_, ?_, ?_, ?_, ?_, ?_⟩ <;>
    simp [startDrag, getStartGestureState, initDragState]

theorem onDragStart_eq_startDrag (cfg : DragConfig) (hd : Handler) (ev : Ev) (c : Ctrl)
    (hE : cfg.enabled = true) (hD : cfg.delay ≤ 0) (hA : c.state._active = false) :
    onDragStart cfg hd ev c =
      startDrag cfg hd ev { c with state := { c.state with _pointerId := some ev.pointerId } } := by
  unfold onDragStart
  rw [if_neg (by simp [hE, hA])]
  rw [if_neg (not_lt.mpr hD)]

theorem onDragChange_run (cfg : DragConfig) (hd : Handler) (ev : Ev) (c : Ctrl)
    (hc : c.state.canceled = false) (hp : c.state._pointerId = some ev.pointerId)
    (ha : c.state._active = true) (hdn : ev.down = true) :
    ((onDragChange cfg hd ev c).1).state._active = true ∧
    ((onDragChange cfg hd ev c).1).state.canceled = false ∧
    ((onDragChange cfg hd ev c).1).state._pointerId = c.state._pointerId ∧
    ((onDragChange cfg hd ev c).1).state.initial = c.state.initial ∧
    ((onDragChange cfg hd ev c).1).state.lastOffset = c.state.lastOffset ∧
    ((onDragChange cfg hd ev c).1).state._blocked = false ∧
    ((onDragChange cfg hd ev c).1).timer = c.timer ∧
    ((onDragChange cfg hd ev c).1).state._isTap =
      (if c.state._isTap = true ∧
          TAP_DISTANCE_THRESHOLD * TAP_DISTANCE_THRESHOLD ≤
            calculateDistanceSq (subV ev.values c.state.initial)
       then false else c.state._isTap) := by
  unfold onDragChange
  rw [if_neg (by rw [hc]; exact Bool.false_ne_true)]
  rw [if_neg (by rw [hp]; exact not_ne_iff.mpr rfl)]
  rw [if_neg (by rw [ha]; simp)]
  rw [if_neg (by rw [hdn]; simp)]
  refine ⟨?_, ?_, ?_, ?_, ?_, ?_, ?_, ?_⟩ <;>
    simp [ha, hc]

theorem onDragEnd_run (cfg : DragConfig) (hd : Handler) (ev : Ev) (c : Ctrl)
    (hp : c.state._pointerId = some ev.pointerId) :
    ((onDragEnd cfg hd ev c).1).state._active = false ∧
    ((onDragEnd cfg hd ev c).1).state.canceled = c.state.canceled ∧
    ((onDragEnd cfg hd ev c).1).state.lastOffset = c.state.lastOffset ∧
    ((onDragEnd cfg hd ev c).1).state._movement = subV c.state.values c.state.initial ∧
    ((onDragEnd cfg hd ev c).1).state.offset =
      computeRubberband cfg
        (addV (preMovement cfg ((onDragEnd cfg hd ev c).1).state._movement
            ((onDragEnd cfg hd ev c).1).state._intentional)
          c.state.lastOffset) (0, 0) ∧
    ((onDragEnd cfg hd ev c).1).state.tap = c.state._isTap ∧
    ((onDragEnd cfg hd ev c).1).state._isTap = c.state._isTap := by
  have hne : ¬(some ev.pointerId ≠ c.state._pointerId) := by rw [hp]; exact not_ne_iff.mpr rfl
  unfold onDragEnd
  rw [if_neg hne]
  have hmov : (getMovement cfg c.state.values { c.state with _active := false }).offset =
      computeRubberband cfg
        (addV (preMovement cfg (subV c.state.values c.state.initial)
            ((getMovement cfg c.state.values { c.state with _active := false })._intentional))
          c.state.lastOffset) (0, 0) := by
    rw [getMovement_offset_eq]
    rfl
  refine ⟨?_, ?_, ?_, ?_, ?_, ?_, ?_⟩ <;>
    simp [hmov]

theorem moves_foldl_inv (cfg : DragConfig) (hd : Handler) (s : Sess) :
    ∀ (l : List (ℚ × Vector2)) (c : Ctrl),
      c.state._active = true → c.state.canceled = false → c.state._pointerId = some s.pid →
      ((l.foldl (fun acc tv => (onDragChange cfg hd (s.moveEv tv) acc).1) c).state._active = true ∧
       (l.foldl (fun acc tv => (onDragChange cfg hd (s.moveEv tv) acc).1) c).state.canceled = false ∧
       (l.foldl (fun acc tv => (onDragChange cfg hd (s.moveEv tv) acc).1) c).state._pointerId =
         some s.pid ∧
       (l.foldl (fun acc tv => (onDragChange cfg hd (s.moveEv tv) acc).1) c).state.initial =
         c.state.initial ∧
       (l.foldl (fun acc tv => (onDragChange cfg hd (s.moveEv tv) acc).1) c).state.lastOffset =
         c.state.lastOffset) := by
  intro l
  induction l with
  | nil => intro c h1 h2 h3; exact ⟨h1, h2, h3, rfl, rfl⟩
  | cons tv rest ih =>
    intro c h1 h2 h3
    simp only [List.foldl_cons]
    obtain ⟨a1, a2, a3, a4, a5, _, _, _⟩ :=
      onDragChange_run cfg hd (s.moveEv tv) c h2 (by rw [h3]; rfl) h1 rfl
    obtain ⟨b1, b2, b3, b4, b5⟩ :=
      ih ((onDragChange cfg hd (s.moveEv tv) c).1) a1 a2 (a3.trans h3)
    exact ⟨b1, b2, b3, b4.trans a4, b5.trans a5⟩

theorem moves_foldl_tap (cfg : DragConfig) (hd : Handler) (s : Sess) :
    ∀ (l : List (ℚ × Vector2)) (c : Ctrl),
      c.state._active = true → c.state.canceled = false → c.state._pointerId = some s.pid →
      c.state._isTap = true →
      (∀ tv ∈ l, calculateDistanceSq (subV tv.2 c.state.initial) <
        TAP_DISTANCE_THRESHOLD * TAP_DISTANCE_THRESHOLD) →
      (l.foldl (fun acc tv => (onDragChange cfg hd (s.moveEv tv) acc).1) c).state._isTap = true := by
  intro l
  induction l with
  | nil => intro c _ _ _ h4 _; exact h4
  | cons tv rest ih =>
    intro c h1 h2 h3 h4 h5
    simp only [List.foldl_cons]
    obtain ⟨a1, a2, a3, a4, _, _, _, a8⟩ :=
      onDragChange_run cfg hd (s.moveEv tv) c h2 (by rw [h3]; rfl) h1 rfl
    have hdist : calculateDistanceSq (subV (s.moveEv tv).values c.state.initial) <
        TAP_DISTANCE_THRESHOLD * TAP_DISTANCE_THRESHOLD := h5 tv (List.mem_cons_self tv rest)
    have htap : ((onDragChange cfg hd (s.moveEv tv) c).1).state._isTap = true := by
      rw [a8, if_neg]
      · exact h4
      · intro hcon
        exact absurd hcon.2 (not_le.mpr hdist)
    refine ih ((onDragChange cfg hd (s.moveEv tv) c).1) a1 a2 (a3.trans h3) htap ?_
    intro tv2 hmem
    rw [a4]
    exact h5 tv2 (List.mem_cons_of_mem tv hmem)

theorem runSession_eq (cfg : DragConfig) (hd : Handler) (c : Ctrl) (s : Sess)
    (hE : cfg.enabled = true) (hD : cfg.delay ≤ 0) (hA : c.state._active = false) :
    runSession cfg hd c s =
      (onDragEnd cfg hd s.endEv
        (s.moves.foldl (fun acc tv => (onDragChange cfg hd (s.moveEv tv) acc).1)
          ((startDrag cfg hd s.startEv
            { c with state := { c.state with _pointerId := some s.startEv.pointerId } }).1))).1 := by
  unfold runSession
  rw [onDragStart_eq_startDrag cfg hd s.startEv c hE hD hA]

theorem runSession_run (cfg : DragConfig) (hd : Handler) (c : Ctrl) (s : Sess)
    (hE : cfg.enabled = true) (hD : cfg.delay ≤ 0) (hA : c.state._active = false) :
    (runSession cfg hd c s).state._active = false ∧
    (runSession cfg hd c s).state.lastOffset = c.state.offset ∧
    (runSession cfg hd c s).state.offset =
      computeRubberband cfg
        (addV (preMovement cfg (runSession cfg hd c s).state._movement
            (runSession cfg hd c s).state._intentional)
          c.state.offset) (0, 0) := by
  obtain ⟨s1, s2, s3, s4, s5, s6, s7, s8⟩ :=
    startDrag_run cfg hd s.startEv
      { c with state := { c.state with _pointerId := some s.startEv.pointerId } }
  obtain ⟨m1, m2, m3, m4, m5⟩ :=
    moves_foldl_inv cfg hd s s.moves
      ((startDrag cfg hd s.startEv
        { c with state := { c.state with _pointerId := some s.startEv.pointerId } }).1)
      s1 s2 s3
  obtain ⟨e1, e2, e3, e4, e5, e6, e7⟩ :=
    onDragEnd_run cfg hd s.endEv
      (s.moves.foldl (fun acc tv => (onDragChange cfg hd (s.moveEv tv) acc).1)
        ((startDrag cfg hd s.startEv
          { c with state := { c.state with _pointerId := some s.startEv.pointerId } }).1))
      m3
  rw [runSession_eq cfg hd c s hE hD hA]
  refine ⟨e1, ?_, ?_⟩
  · rw [e3, m5]
    exact s5
  · rw [e5, m5, s5]

theorem runSessions_offset_fold (cfg : DragConfig) (hd : Handler)
    (hE : cfg.enabled = true) (hD : cfg.delay ≤ 0) :
    ∀ (l : List Sess) (c : Ctrl), c.state._active = false →
      ((runSessions cfg hd c l).state.offset =
        List.foldl (fun acc m => computeRubberband cfg (addV m acc) (0, 0)) c.state.offset
          (finalMovements cfg hd c l) ∧
      (runSessions cfg hd c l).state._active = false) := by
  intro l
  induction l with
  | nil => intro c hA; exact ⟨rfl, hA⟩
  | cons s rest ih =>
    intro c hA
    obtain ⟨r1, r2, r3⟩ := runSession_run cfg hd c s hE hD hA
    obtain ⟨ih1, ih2⟩ := ih (runSession cfg hd c s) r1
    have hrs : runSessions cfg hd c (s :: rest) =
        runSessions cfg hd (runSession cfg hd c s) rest := rfl
    have hfm : finalMovements cfg hd c (s :: rest) =
        preMovement cfg (runSession cfg hd c s).state._movement
            (runSession cfg hd c s).state._intentional ::
          finalMovements cfg hd (runSession cfg hd c s) rest := rfl
    refine ⟨?_, by rw [hrs]; exact ih2⟩
    rw [hrs, hfm, List.foldl_cons, ih1, r3]

/-- Claim C1: offset accumulates across gesture sessions and is never
reset by a new session start.  (a) `getStartGestureState` sets both
`offset` and `lastOffset` to the offset left by the previous session;
(b) within a session `getMovement` computes `offset` as the rubberbanded
value of `lastOffset` plus the session's (threshold-adjusted,
pre-rubberband) movement; (c) hence after N completed sessions `offset`
equals the rubberbanded accumulation of each session's final movement
(the rubberband factor degenerating to a hard clamp on each end frame,
where the gesture is no longer active). -/
theorem C1_offset_accumulation (cfg : DragConfig) (handler : Handler) (c : Ctrl)
    (l : List Sess) (hE : cfg.enabled = true) (hD : cfg.delay ≤ 0)
    (hA : c.state._active = false) :
    (∀ (s : RState) (v : Vector2) (t : ℚ),
      (getStartGestureState s v t).offset = s.offset ∧
      (getStartGestureState s v t).lastOffset = s.offset) ∧
    (∀ (v : Vector2) (s : RState),
      (getMovement cfg v s).offset =
        computeRubberband cfg
          (addV (preMovement cfg (subV v s.initial) ((getMovement cfg v s)._intentional))
            s.lastOffset)
          (if s._active then cfg.rubberband else (0, 0))) ∧
    ((runSessions cfg handler c l).state.offset =
      List.foldl (fun acc m => computeRubberband cfg (addV m acc) (0, 0)) c.state.offset
        (finalMovements cfg handler c l)) :=
  ⟨fun _ _ _ => ⟨rfl, rfl⟩,
   fun v s => getMovement_offset_eq cfg v s,
   (runSessions_offset_fold cfg handler hE hD l c hA).1⟩

/-- Witness for C1: two completed sessions under the default config; the
second session starts from the offset (7,5) left by the first. -/
theorem C1_offset_accumulation_witness :
    defaultDragConfig.enabled = true ∧
    defaultDragConfig.delay ≤ 0 ∧
    initCtrl.state._active = false ∧
    ((∀ (s : RState) (v : Vector2) (t : ℚ),
      (getStartGestureState s v t).offset = s.offset ∧
      (getStartGestureState s v t).lastOffset = s.offset) ∧
    (∀ (v : Vector2) (s : RState),
      (getMovement defaultDragConfig v s).offset =
        computeRubberband defaultDragConfig
          (addV (preMovement defaultDragConfig (subV v s.initial)
              ((getMovement defaultDragConfig v s)._intentional))
            s.lastOffset)
          (if s._active then defaultDragConfig.rubberband else (0, 0))) ∧
    ((runSessions defaultDragConfig handlerNone initCtrl
        [⟨1, 0, (0, 0), [(10, (7, 5))], 20⟩, ⟨1, 100, (50, 50), [(110, (53, 51))], 120⟩]).state.offset =
      List.foldl (fun acc m => computeRubberband defaultDragConfig (addV m acc) (0, 0))
        initCtrl.state.offset
        (finalMovements defaultDragConfig handlerNone initCtrl
          [⟨1, 0, (0, 0), [(10, (7, 5))], 20⟩, ⟨1, 100, (50, 50), [(110, (53, 51))], 120⟩]))) :=
  ⟨rfl, by decide, rfl,
   C1_offset_accumulation defaultDragConfig handlerNone initCtrl
     [⟨1, 0, (0, 0), [(10, (7, 5))], 20⟩, ⟨1, 100, (50, 50), [(110, (53, 51))], 120⟩]
     rfl (by decide) rfl⟩

theorem onDragEnd_isTap (cfg : DragConfig) (hd : Handler) (ev : Ev) (c2 : Ctrl) :
    ((onDragEnd cfg hd ev c2).1).state._isTap = c2.state._isTap := by
  unfold onDragEnd
  split
  · rfl
  · simp

/-- Claim C5 counterexample: a session whose single move sample sits at
true distance exactly 3 px from the start — approaching but never
exceeding the 3 px threshold — still ends with `tap = false`, because
the code clears the flag on `distance >= 3`, not `> 3`. -/
theorem C5_tap_counterexample :
    calculateDistanceSq (subV (3, 0) (0, 0)) ≤
      TAP_DISTANCE_THRESHOLD * TAP_DISTANCE_THRESHOLD ∧
    (runSession defaultDragConfig handlerNone initCtrl
      ⟨1, 0, (0, 0), [(10, (3, 0))], 20⟩).state.tap = false := by
  constructor
  · norm_num [calculateDistanceSq, subV, TAP_DISTANCE_THRESHOLD]
  · norm_num +decide [runSession, onDragStart, onDragChange, onDragEnd, startDrag,
      fireGestureHandler, applyMovement, getMovement, getStartGestureState, initDragState,
      initCtrl, getIntentionalDisplacement, preMovement, computeRubberband,
      rubberbandIfOutOfBounds, addV, subV, jsSign, calculateVelocities, calculateDistanceSq,
      handlerNone, defaultDragConfig, Sess.startEv, Sess.moveEv, Sess.endEv,
      TAP_DISTANCE_THRESHOLD, SWIPE_MAX_ELAPSED_TIME, DEFAULT_SWIPE_VELOCITY,
      DEFAULT_SWIPE_DISTANCE]

/-- Claim C5 as amended: a drag session whose true (un-thresholded)
distance from start stays strictly below the 3 px threshold on every
sample reports `tap = true` at its end; once the distance reaches
(`>=`) the threshold on any sample, the tap flag is cleared and stays
false for the remainder of that session, and the session then ends with
`tap = false`. -/
theorem C5_tap_amended (cfg : DragConfig) (hd : Handler) (c : Ctrl) (s : Sess)
    (hE : cfg.enabled = true) (hD : cfg.delay ≤ 0) (hA : c.state._active = false) :
    ((∀ tv ∈ s.moves, calculateDistanceSq (subV tv.2 s.v0) <
        TAP_DISTANCE_THRESHOLD * TAP_DISTANCE_THRESHOLD) →
      (runSession cfg hd c s).state.tap = true) ∧
    (∀ (ev : Ev) (c2 : Ctrl), c2.state._isTap = false → c2.state._active = true →
      ((onDragChange cfg hd ev c2).1).state._isTap = false) ∧
    (∀ (ev : Ev) (c2 : Ctrl), c2.state._isTap = false →
      ((onDragEnd cfg hd ev c2).1).state._isTap = false ∧
      (c2.state._pointerId = some ev.pointerId →
        ((onDragEnd cfg hd ev c2).1).state.tap = false)) := by
  refine ⟨fun hdist => ?_, fun ev c2 ht ha2 => ?_, fun ev c2 ht => ?_⟩
  · rw [runSession_eq cfg hd c s hE hD hA]
    obtain ⟨s1, s2, s3, s4, s5, s6, s7, s8⟩ :=
      startDrag_run cfg hd s.startEv
        { c with state := { c.state with _pointerId := some s.startEv.pointerId } }
    obtain ⟨m1, m2, m3, m4, m5⟩ :=
      moves_foldl_inv cfg hd s s.moves
        ((startDrag cfg hd s.startEv
          { c with state := { c.state with _pointerId := some s.startEv.pointerId } }).1)
        s1 s2 s3
    have htap := moves_foldl_tap cfg hd s s.moves
      ((startDrag cfg hd s.startEv
        { c with state := { c.state with _pointerId := some s.startEv.pointerId } }).1)
      s1 s2 s3 s7 (fun tv hm => by rw [s4]; exact hdist tv hm)
    obtain ⟨e1, e2, e3, e4, e5, e6, e7⟩ :=
      onDragEnd_run cfg hd s.endEv
        (s.moves.foldl (fun acc tv => (onDragChange cfg hd (s.moveEv tv) acc).1)
          ((startDrag cfg hd s.startEv
            { c with state := { c.state with _pointerId := some s.startEv.pointerId } }).1))
        m3
    exact e6.trans htap
  · unfold onDragChange
    by_cases hca : c2.state.canceled = true
    · rw [if_pos hca]; exact ht
    · rw [if_neg hca]
      by_cases hpt : some ev.pointerId ≠ c2.state._pointerId
      · rw [if_pos hpt]; exact ht
      · rw [if_neg hpt]
        rw [if_neg (not_not_intro ha2)]
        by_cases hdn : ¬ev.down = true
        · rw [if_pos hdn]
          exact (onDragEnd_isTap cfg hd ev c2).trans ht
        · rw [if_neg hdn]
          simp [ht]
  · refine ⟨(onDragEnd_isTap cfg hd ev c2).trans ht, fun hp => ?_⟩
    exact ((onDragEnd_run cfg hd ev c2 hp).2.2.2.2.2.1).trans ht

/-- Witness for the amended C5, at a single-move session staying at
distance 2 from the start. -/
theorem C5_tap_amended_witness :
    defaultDragConfig.enabled = true ∧
    defaultDragConfig.delay ≤ 0 ∧
    initCtrl.state._active = false ∧
    (((∀ tv ∈ ([(10, (2, 0))] : List (ℚ × Vector2)),
        calculateDistanceSq (subV tv.2 (0, 0)) <
          TAP_DISTANCE_THRESHOLD * TAP_DISTANCE_THRESHOLD) →
      (runSession defaultDragConfig handlerNone initCtrl
        ⟨1, 0, (0, 0), [(10, (2, 0))], 20⟩).state.tap = true) ∧
    (∀ (ev : Ev) (c2 : Ctrl), c2.state._isTap = false → c2.state._active = true →
      ((onDragChange defaultDragConfig handlerNone ev c2).1).state._isTap = false) ∧
    (∀ (ev : Ev) (c2 : Ctrl), c2.state._isTap = false →
      ((onDragEnd defaultDragConfig handlerNone ev c2).1).state._isTap = false ∧
      (c2.state._pointerId = some ev.pointerId →
        ((onDragEnd defaultDragConfig handlerNone ev c2).1).state.tap = false))) :=
  ⟨rfl, by decide, rfl,
   C5_tap_amended defaultDragConfig handlerNone initCtrl
     ⟨1, 0, (0, 0), [(10, (2, 0))], 20⟩ rfl (by decide) rfl⟩
